import Mathlib

/-!
Verification development for the xeniface grant/map/event-channel ioctl core
(src/xeniface/ioctls.c and src/xeniface/ioctl_gnttab.c).

The stateful C handlers are embedded shallowly: kernel allocations, bus calls
and user-mode mapping are supplied by an oracle record; each handler is a pure
function from (oracle, pending-operation queue, parsed request) to a result
status, the updated queue, and the ordered list of resource events (allocate,
share, revoke, free, ...) the handler performs.  ULONG arithmetic that the C
code performs in 32 bits (NumberPages * PAGE_SIZE) is taken modulo 2^32;
size_t arithmetic (NumberPages * sizeof(...)) is exact, as on a 64-bit build.
-/

namespace Xeniface

/-- PAGE_SIZE on x86/x64, as used by the driver. -/
def PAGE_SIZE : Nat := 4096

/-- Modulus of 32-bit ULONG arithmetic. -/
def U32 : Nat := 2 ^ 32

/-- NTSTATUS values that the embedded handlers distinguish.  A failing status
reported by the xenbus grant-table collaborator is carried opaquely as
`busError code`. -/
inductive NTStatus where
  | success
  | pending
  | invalidBufferSize
  | invalidParameter
  | noMemory
  | notFound
  | unsuccessful
  | cancelled
  | busError (code : Nat)
  deriving DecidableEq, Repr

/-- The XENIFACE_GNTTAB_PAGE_FLAGS bits tested by the handlers
(XENIFACE_GNTTAB_READONLY, XENIFACE_GNTTAB_USE_NOTIFY_OFFSET,
XENIFACE_GNTTAB_USE_NOTIFY_PORT), modelled as booleans. -/
structure GntFlags where
  readonly : Bool := false
  useNotifyOffset : Bool := false
  useNotifyPort : Bool := false
  deriving DecidableEq, Repr

/-- Modelled from the spec: the fixed byte size of
XENIFACE_GNTTAB_PERMIT_FOREIGN_ACCESS_IN.  The header defining the exact
count is not under src/; only exact-match comparison against InLen matters. -/
def sizeofPermitIn : Nat := 32

/-- Modelled from the spec: fixed byte size of the
XENIFACE_GNTTAB_MAP_FOREIGN_PAGES_IN header (before the reference array). -/
def sizeofMapIn : Nat := 32

/-- Modelled from the spec: fixed byte size of XENIFACE_GNTTAB_GET_GRANT_RESULT_IN. -/
def sizeofGetGrantResultIn : Nat := 8

/-- Modelled from the spec: fixed byte size of the
XENIFACE_GNTTAB_GET_GRANT_RESULT_OUT header (the user address, before the
reference array). -/
def sizeofGetGrantResultOut : Nat := 8

/-- Modelled from the spec: fixed byte size of XENIFACE_GNTTAB_UNMAP_FOREIGN_PAGES_IN. -/
def sizeofUnmapIn : Nat := 8

/-- Modelled from the spec: fixed byte size of XENIFACE_STORE_REMOVE_WATCH_IN. -/
def sizeofRemoveWatchIn : Nat := 8

/-- sizeof(ULONG): one grant reference slot in a variable-size message. -/
def sizeofUlong : Nat := 4

/-- sizeof(PXENBUS_GNTTAB_ENTRY) on a 64-bit build: one grant bookkeeping slot. -/
def sizeofGrantEntry : Nat := 8

/-- The 32-bit ULONG product NumberPages * PAGE_SIZE exactly as the C code
computes it (ioctls.c:1245/1285, ioctl_gnttab.c:167/207): it wraps at 2^32. -/
def grantBufferBytes (numberPages : Nat) : Nat := (numberPages * PAGE_SIZE) % U32

/-- The common pageCount / notify-offset validation of
IoctlGnttabPermitForeignAccess and IoctlGnttabMapForeignPages
(ioctl_gnttab.c:160-169 and 510-519): rejected (invalid-parameter) iff
NumberPages == 0, NumberPages > 1024*1024, or the offset-poke flag is set and
NotifyOffset >= NumberPages * PAGE_SIZE in ULONG arithmetic. -/
def gnttabParamsRejected (numberPages : Nat) (flags : GntFlags) (notifyOffset : Nat) : Bool :=
  decide (numberPages = 0) || decide (numberPages > 1024 * 1024) ||
    (flags.useNotifyOffset && decide (notifyOffset ≥ grantBufferBytes numberPages))

/-- Operation kind stored in XENIFACE_CONTEXT_ID. -/
inductive CtxKind where
  | grant
  | map
  deriving DecidableEq, Repr

/-- XENIFACE_CONTEXT_ID: the key of a pending operation in the IRP queue
(owning process, caller-chosen request id, operation kind). -/
structure CtxId where
  process : Nat
  requestId : Nat
  kind : CtxKind
  deriving DecidableEq, Repr

/-- XENIFACE_GRANT_CONTEXT: bookkeeping of a permit-foreign-access operation.
`grants` lists the per-page grant handles in acquisition order (index = page). -/
structure GrantCtx where
  id : CtxId
  remoteDomain : Nat
  numberPages : Nat
  flags : GntFlags
  notifyOffset : Nat
  notifyPort : Nat
  grants : List Nat
  userVa : Nat
  deriving DecidableEq, Repr

/-- XENIFACE_MAP_CONTEXT: bookkeeping of a map-foreign-pages operation. -/
structure MapCtx where
  id : CtxId
  remoteDomain : Nat
  numberPages : Nat
  flags : GntFlags
  notifyOffset : Nat
  notifyPort : Nat
  address : Nat
  userVa : Nat
  deriving DecidableEq, Repr

/-- A pending operation parked in the IRP queue. -/
inductive Pending where
  | grant (c : GrantCtx)
  | map (c : MapCtx)
  deriving DecidableEq, Repr

/-- The key of a parked operation. -/
def Pending.ctxId : Pending → CtxId
  | .grant c => c.id
  | .map c => c.id

/-- The cancellation-safe IRP queue, as a list of parked operations. -/
abbrev IrpQueue := List Pending

/-- Modelled from the spec: CsqPeekNextIrp keyed lookup (irp_queue.c is not
under src/).  Section 4.1: peek returns the parked operation matching
(client, id, kind) without removing it. -/
def queueFind (q : IrpQueue) (id : CtxId) : Option Pending :=
  q.find? (fun p => p.ctxId == id)

/-- Modelled from the spec: IoCsqInsertIrpEx (irp_queue.c is not under src/).
Section 4.1/4.2 step 6: insertion fails if an operation with the same
(client, id, kind) is already registered, and the duplicate is reported as
invalid-parameter. -/
def queueInsert (q : IrpQueue) (p : Pending) : Except NTStatus IrpQueue :=
  if (queueFind q p.ctxId).isSome then .error .invalidParameter
  else .ok (q ++ [p])

/-- Modelled from the spec: IoCsqRemoveNextIrp (irp_queue.c is not under
src/).  Section 4.1: atomically removes and returns the matching operation,
or fails with not-found. -/
def queueRemove : IrpQueue → CtxId → Option (Pending × IrpQueue)
  | [], _ => none
  | p :: q, id =>
    if p.ctxId = id then some (p, q)
    else
      match queueRemove q id with
      | none => none
      | some (r, q') => some (r, p :: q')

/-- Resource events a handler performs, in program order. -/
inductive Ev where
  | allocCtx
  | allocGrants (bytes : Nat)
  | allocBuf (bytes : Nat)
  | allocMdl (bytes : Nat)
  | share (grant : Nat)
  | revoke (grant : Nat)
  | busMapPages (address : Nat)
  | busUnmap (address : Nat)
  | mapKernelVa (bytes : Nat)
  | unmapKernelVa
  | mapUserVa
  | unmapUserVa
  | zeroNotifyByte (off : Nat)
  | notifyPort (port : Nat)
  | freeMdl
  | freeBuf
  | freeGrants
  | freeCtx
  | insertQueue (requestId : Nat)
  deriving DecidableEq, Repr

/-- Result of a gnttab ioctl handler: status, queue afterwards, events. -/
structure IoctlResult where
  status : NTStatus
  queue : IrpQueue
  events : List Ev
  deriving DecidableEq, Repr

/-- The grants that appear as revoke events, in order. -/
def revokeSeq (evs : List Ev) : List Nat :=
  evs.filterMap fun e =>
    match e with
    | .revoke g => some g
    | _ => none

/-- The addresses of bus mappings acquired (XENBUS_GNTTAB MapForeignPages),
in order. -/
def busMapSeq (evs : List Ev) : List Nat :=
  evs.filterMap fun e =>
    match e with
    | .busMapPages a => some a
    | _ => none

/-- The addresses of bus mappings undone (XENBUS_GNTTAB UnmapForeignPages),
in order. -/
def busUnmapSeq (evs : List Ev) : List Nat :=
  evs.filterMap fun e =>
    match e with
    | .busUnmap a => some a
    | _ => none

/-- Outcome of the per-page sharing loop: either all pages were shared
(grants in page order), or sharing failed on page `failPage` with bus status
`code`, `grants` holding the handles of pages 0..failPage-1. -/
inductive ShareOutcome where
  | ok (grants : List Nat)
  | fail (failPage : Nat) (grants : List Nat) (code : Nat)
  deriving DecidableEq, Repr

/-- The sharing loop of IoctlGnttabPermitForeignAccess
(ioctl_gnttab.c:219-235), starting at page `i` with `r` pages left.
`share` is the bus response per page index. -/
def shareLoopGo (share : Nat → Except Nat Nat) : Nat → Nat → ShareOutcome
  | _, 0 => .ok []
  | i, r + 1 =>
    match share i with
    | .error e => .fail i [] e
    | .ok g =>
      match shareLoopGo share (i + 1) r with
      | .ok gs => .ok (g :: gs)
      | .fail k gs e => .fail k (g :: gs) e

/-- The full sharing loop over pages 0..n-1. -/
def shareLoop (share : Nat → Except Nat Nat) (n : Nat) : ShareOutcome :=
  shareLoopGo share 0 n

/-- The fail8 unwind loop of IoctlGnttabPermitForeignAccess
(ioctl_gnttab.c:281-289): while Page > 0, revoke Grants[Page - 1] and
decrement Page. -/
def unwindRevokes (grants : List Nat) : Nat → List Ev
  | 0 => []
  | p + 1 => Ev.revoke (grants.getD p 0) :: unwindRevokes grants p

/-- Responses of the kernel allocator, the grant-table bus and the user-mode
mapper during one IoctlGnttabPermitForeignAccess call. -/
structure GrantOracle where
  ctxAlloc : Bool
  grantsAlloc : Bool
  bufAlloc : Bool
  mdlAlloc : Bool
  share : Nat → Except Nat Nat
  mapUserVa : Option Nat

/-- Parsed XENIFACE_GNTTAB_PERMIT_FOREIGN_ACCESS_IN. -/
structure PermitIn where
  requestId : Nat
  remoteDomain : Nat
  numberPages : Nat
  flags : GntFlags
  notifyOffset : Nat
  notifyPort : Nat
  deriving DecidableEq, Repr

/-- IoctlGnttabPermitForeignAccess (ioctl_gnttab.c:139-317; identical logic
in ioctls.c:1224-1389).  Size check, parameter check, duplicate-id check,
allocations, the sharing loop, the user-mode mapping, queue insertion; each
failX label's unwind is reproduced as the event suffix of that branch.  The
map-into-user-mode failure (fail9 exception / fail10 NULL) is collapsed into
the status `unsuccessful`. -/
def ioctlGnttabPermitForeignAccess (o : GrantOracle) (q : IrpQueue) (process : Nat)
    (inLen outLen : Nat) (inp : PermitIn) : IoctlResult :=
  if inLen ≠ sizeofPermitIn ∨ outLen ≠ 0 then
    ⟨.invalidBufferSize, q, []⟩
  else if gnttabParamsRejected inp.numberPages inp.flags inp.notifyOffset then
    ⟨.invalidParameter, q, []⟩
  else if o.ctxAlloc = false then
    ⟨.noMemory, q, []⟩
  else
    let id : CtxId := ⟨process, inp.requestId, .grant⟩
    if (queueFind q id).isSome then
      ⟨.invalidParameter, q, [.allocCtx, .freeCtx]⟩
    else if o.grantsAlloc = false then
      ⟨.noMemory, q, [.allocCtx, .freeCtx]⟩
    else if o.bufAlloc = false then
      ⟨.noMemory, q, [.allocCtx, .allocGrants (inp.numberPages * sizeofGrantEntry),
                      .freeGrants, .freeCtx]⟩
    else if o.mdlAlloc = false then
      ⟨.noMemory, q, [.allocCtx, .allocGrants (inp.numberPages * sizeofGrantEntry),
                      .allocBuf (grantBufferBytes inp.numberPages),
                      .freeBuf, .freeGrants, .freeCtx]⟩
    else
      let pre : List Ev := [.allocCtx, .allocGrants (inp.numberPages * sizeofGrantEntry),
                            .allocBuf (grantBufferBytes inp.numberPages),
                            .allocMdl (grantBufferBytes inp.numberPages)]
      match shareLoop o.share inp.numberPages with
      | .fail k gs e =>
        ⟨.busError e, q, pre ++ gs.map Ev.share ++ unwindRevokes gs k ++
                         [.freeMdl, .freeBuf, .freeGrants, .freeCtx]⟩
      | .ok gs =>
        match o.mapUserVa with
        | none =>
          ⟨.unsuccessful, q, pre ++ gs.map Ev.share ++
                             unwindRevokes gs inp.numberPages ++
                             [.freeMdl, .freeBuf, .freeGrants, .freeCtx]⟩
        | some va =>
          let ctx : GrantCtx := ⟨id, inp.remoteDomain, inp.numberPages, inp.flags,
                                 inp.notifyOffset, inp.notifyPort, gs, va⟩
          match queueInsert q (.grant ctx) with
          | .error st =>
            ⟨st, q, pre ++ gs.map Ev.share ++ [.mapUserVa, .unmapUserVa] ++
                    unwindRevokes gs inp.numberPages ++
                    [.freeMdl, .freeBuf, .freeGrants, .freeCtx]⟩
          | .ok q' =>
            ⟨.pending, q', pre ++ gs.map Ev.share ++ [.mapUserVa, .insertQueue inp.requestId]⟩

/-- GnttabFreeGrant (ioctl_gnttab.c:389-438; identical in ioctls.c:1173-1222):
teardown of a fully constructed grant context — optional notify-byte zeroing,
optional event-channel poke, unmap from user space, the revoke loop over
pages 0..n-1 in that order, then the frees. -/
def gnttabFreeGrant (ctx : GrantCtx) : List Ev :=
  (if ctx.flags.useNotifyOffset then [Ev.zeroNotifyByte ctx.notifyOffset] else []) ++
  (if ctx.flags.useNotifyPort then [Ev.notifyPort ctx.notifyPort] else []) ++
  [Ev.unmapUserVa] ++
  ctx.grants.map Ev.revoke ++
  [Ev.freeMdl, Ev.freeBuf, Ev.freeGrants, Ev.freeCtx]

/-- GnttabFreeMap (ioctl_gnttab.c:707-749): teardown of a map context —
optional notifications, unmap user space, free MDL, unmap kernel space, ask
the bus to undo the foreign mapping, free the context. -/
def gnttabFreeMap (ctx : MapCtx) : List Ev :=
  (if ctx.flags.useNotifyOffset then [Ev.zeroNotifyByte ctx.notifyOffset] else []) ++
  (if ctx.flags.useNotifyPort then [Ev.notifyPort ctx.notifyPort] else []) ++
  [Ev.unmapUserVa, Ev.freeMdl, Ev.unmapKernelVa, Ev.busUnmap ctx.address, Ev.freeCtx]

/-- Parsed XENIFACE_GNTTAB_MAP_FOREIGN_PAGES_IN (header plus the
variable-length grant reference array). -/
structure MapIn where
  requestId : Nat
  remoteDomain : Nat
  numberPages : Nat
  flags : GntFlags
  notifyOffset : Nat
  notifyPort : Nat
  references : List Nat
  deriving DecidableEq, Repr

/-- Responses of the collaborators during one IoctlGnttabMapForeignPages
call: context allocation, the single bus MapForeignPages call (error status
or mapped physical address), the kernel-space mapping, the MDL allocation,
the user-mode mapping. -/
structure MapOracle where
  ctxAlloc : Bool
  busMap : Except Nat Nat
  kernelMap : Option Nat
  mdlAlloc : Bool
  mapUserVa : Option Nat

/-- IoctlGnttabMapForeignPages (ioctl_gnttab.c:489-647; identical logic in
ioctls.c:1507-1652).  Minimum-size check, parameter check, exact
variable-length size check, duplicate-id check, the bus mapping, kernel and
user mappings, queue insertion; each failX unwind is the event suffix of its
branch. -/
def ioctlGnttabMapForeignPages (o : MapOracle) (q : IrpQueue) (process : Nat)
    (inLen outLen : Nat) (inp : MapIn) : IoctlResult :=
  if inLen < sizeofMapIn ∨ outLen ≠ 0 then
    ⟨.invalidBufferSize, q, []⟩
  else if gnttabParamsRejected inp.numberPages inp.flags inp.notifyOffset then
    ⟨.invalidParameter, q, []⟩
  else if inLen ≠ sizeofMapIn + sizeofUlong * inp.numberPages then
    ⟨.invalidBufferSize, q, []⟩
  else if o.ctxAlloc = false then
    ⟨.noMemory, q, []⟩
  else
    let id : CtxId := ⟨process, inp.requestId, .map⟩
    if (queueFind q id).isSome then
      ⟨.invalidParameter, q, [.allocCtx, .freeCtx]⟩
    else
      match o.busMap with
      | .error e => ⟨.busError e, q, [.allocCtx, .freeCtx]⟩
      | .ok addr =>
        match o.kernelMap with
        | none =>
          ⟨.noMemory, q, [.allocCtx, .busMapPages addr, .busUnmap addr, .freeCtx]⟩
        | some _ =>
          if o.mdlAlloc = false then
            ⟨.noMemory, q, [.allocCtx, .busMapPages addr,
                            .mapKernelVa (grantBufferBytes inp.numberPages),
                            .unmapKernelVa, .busUnmap addr, .freeCtx]⟩
          else
            let pre : List Ev := [.allocCtx, .busMapPages addr,
                                  .mapKernelVa (grantBufferBytes inp.numberPages),
                                  .allocMdl (grantBufferBytes inp.numberPages)]
            match o.mapUserVa with
            | none =>
              ⟨.unsuccessful, q, pre ++ [.freeMdl, .unmapKernelVa, .busUnmap addr, .freeCtx]⟩
            | some uva =>
              let ctx : MapCtx := ⟨id, inp.remoteDomain, inp.numberPages, inp.flags,
                                   inp.notifyOffset, inp.notifyPort, addr, uva⟩
              match queueInsert q (.map ctx) with
              | .error st =>
                ⟨st, q, pre ++ [.mapUserVa, .unmapUserVa, .freeMdl,
                                .unmapKernelVa, .busUnmap addr, .freeCtx]⟩
              | .ok q' =>
                ⟨.pending, q', pre ++ [.mapUserVa, .insertQueue inp.requestId]⟩

/-- Result of IoctlGnttabGetGrantResult: status, the queue afterwards (the
lookup is a peek: the code never modifies the queue), and on success the user
address together with the per-page grant reference numbers. -/
structure GetGrantResultOut where
  status : NTStatus
  queue : IrpQueue
  payload : Option (Nat × List Nat)
  deriving DecidableEq, Repr

/-- IoctlGnttabGetGrantResult (ioctl_gnttab.c:319-387; identical in
ioctls.c:1391-1457).  Exact input-size check, peek of the pending grant keyed
by (process, requestId, grant), exact output-size check against
sizeof(OUT) + sizeof(ULONG) * NumberPages, then the user address and the
reference of Grants[page] for each page < NumberPages.  `getReference` is
the bus XENBUS_GNTTAB GetReference response per grant handle.  The queue is
returned unchanged in every branch because the code only peeks. -/
def ioctlGnttabGetGrantResult (q : IrpQueue) (process : Nat)
    (inLen outLen requestId : Nat) (getReference : Nat → Nat) : GetGrantResultOut :=
  if inLen ≠ sizeofGetGrantResultIn then
    ⟨.invalidBufferSize, q, none⟩
  else
    match queueFind q ⟨process, requestId, .grant⟩ with
    | none => ⟨.notFound, q, none⟩
    | some (.map _) => ⟨.notFound, q, none⟩ -- unreachable: the lookup key has kind grant
    | some (.grant ctx) =>
      if outLen ≠ sizeofGetGrantResultOut + sizeofUlong * ctx.numberPages then
        ⟨.invalidBufferSize, q, none⟩
      else
        ⟨.success, q,
         some (ctx.userVa,
               (List.range ctx.numberPages).map fun i => getReference (ctx.grants.getD i 0))⟩

/-- IoctlGnttabUnmapForeignPages (ioctl_gnttab.c:751-800; identical in
ioctls.c:1753-1799).  Note the size check is taken verbatim from the source:
it rejects only when InLen is wrong AND OutLen is nonzero (the source uses
the conjunction, not the disjunction the sibling handlers use).  Otherwise
the pending map operation keyed by (process, requestId, map) is removed and
torn down with GnttabFreeMap. -/
def ioctlGnttabUnmapForeignPages (q : IrpQueue) (process : Nat)
    (inLen outLen requestId : Nat) : IoctlResult :=
  if inLen ≠ sizeofUnmapIn ∧ outLen ≠ 0 then
    ⟨.invalidBufferSize, q, []⟩
  else
    match queueRemove q ⟨process, requestId, .map⟩ with
    | none => ⟨.notFound, q, []⟩
    | some (.grant _, q') => ⟨.success, q', []⟩ -- unreachable: the lookup key has kind map
    | some (.map c, q') => ⟨.success, q', gnttabFreeMap c⟩

/-- XENIFACE_STORE_CONTEXT as far as IoctlStoreRemoveWatch inspects it: the
context address (the client-visible watch handle) and the owning file
object. -/
structure WatchCtx where
  ptr : Nat
  fileObject : Nat
  deriving DecidableEq, Repr

/-- The list walk of IoctlStoreRemoveWatch (ioctls.c:549-561).  The first
component is the final value of the loop's Context variable (the C code
reuses the iteration variable after the loop: it holds the matched entry on
break, or the last visited entry when the walk runs off the end); the second
is whether a matching entry was removed; the third is the list afterwards. -/
def removeWatchScan (target fo : Nat) : List WatchCtx → Option WatchCtx →
    Option WatchCtx × Bool × List WatchCtx
  | [], last => (last, false, [])
  | w :: ws, _ =>
    if w.ptr = target ∧ w.fileObject = fo then (some w, true, ws)
    else
      let r := removeWatchScan target fo ws (some w)
      (r.1, r.2.1, w :: r.2.2)

/-- Result of IoctlStoreRemoveWatch: status, the watch list afterwards, and
the context addresses passed to StoreFreeWatch (teardown). -/
structure RemoveWatchResult where
  status : NTStatus
  list : List WatchCtx
  freed : List Nat
  deriving DecidableEq, Repr

/-- IoctlStoreRemoveWatch (ioctls.c:527-576).  Exact-size check, the guarded
list walk, then the source's post-loop test `Context == NULL || Context !=
In->Context` deciding not-found; otherwise StoreFreeWatch(Context) runs.
The test compares only the pointer, exactly as the source does. -/
def ioctlStoreRemoveWatch (lst : List WatchCtx) (fo : Nat)
    (inLen outLen target : Nat) : RemoveWatchResult :=
  if inLen ≠ sizeofRemoveWatchIn ∨ outLen ≠ 0 then
    ⟨.invalidBufferSize, lst, []⟩
  else
    let r := removeWatchScan target fo lst none
    match r.1 with
    | none => ⟨.notFound, r.2.2, []⟩
    | some c =>
      if c.ptr ≠ target then ⟨.notFound, r.2.2, []⟩
      else ⟨.success, r.2.2, [c.ptr]⟩

/-- XENIFACE_EVTCHN_CONTEXT as far as XenIfaceCleanup inspects it. -/
structure EvtchnCtx where
  ptr : Nat
  fileObject : Nat
  deriving DecidableEq, Repr

/-- The store-watch walk of XenIfaceCleanup (ioctls.c:682-695): every watch
owned by the disconnecting file object is removed from the list and destroyed
(StoreFreeWatch) during the walk.  Returns (remaining list, destroyed
context addresses in walk order). -/
def cleanupWatchWalk (fo : Nat) : List WatchCtx → List WatchCtx × List Nat
  | [] => ([], [])
  | w :: ws =>
    let r := cleanupWatchWalk fo ws
    if w.fileObject = fo then (r.1, w.ptr :: r.2)
    else (w :: r.1, r.2)

/-- The event-channel detach walk of XenIfaceCleanup (ioctls.c:698-713):
every owned channel is removed from the driver list and appended to the
temporary ToFree list (teardown cannot run under the spinlock).  Returns
(remaining list, ToFree in walk order). -/
def evtchnDetachWalk (fo : Nat) : List EvtchnCtx → List EvtchnCtx × List EvtchnCtx
  | [] => ([], [])
  | c :: cs =>
    let r := evtchnDetachWalk fo cs
    if c.fileObject = fo then (r.1, c :: r.2)
    else (c :: r.1, r.2)

/-- The post-lock free loop of XenIfaceCleanup (ioctls.c:715-722): each
detached channel is handed to EvtchnFree in ToFree order. -/
def evtchnFreeAll (l : List EvtchnCtx) : List Nat := l.map EvtchnCtx.ptr

/-- The per-driver registries XenIfaceCleanup walks. -/
structure CleanupState where
  watchList : List WatchCtx
  evtchnList : List EvtchnCtx
  deriving DecidableEq, Repr

/-- XenIfaceCleanup (ioctls.c:667-723): on client disconnection, destroy
every owned watch during the walk, detach every owned channel into a
temporary list, then free each detached channel outside the lock.  Returns
the registries afterwards, the destroyed watch addresses, and the freed
channel addresses. -/
def xenIfaceCleanup (fo : Nat) (s : CleanupState) : CleanupState × List Nat × List Nat :=
  let w := cleanupWatchWalk fo s.watchList
  let e := evtchnDetachWalk fo s.evtchnList
  (⟨w.1, e.1⟩, w.2, evtchnFreeAll e.2)

/-- A concrete two-page grant context: client 1, request id 5, grant handles
10 and 11 acquired for pages 0 and 1. -/
def sampleGrantCtx2 : GrantCtx :=
  ⟨⟨1, 5, .grant⟩, 7, 2, ⟨false, false, false⟩, 0, 0, [10, 11], 4096⟩

/-- A concrete one-page map context: client 1, request id 5, bus address 999,
user address 555. -/
def sampleMapCtx : MapCtx :=
  ⟨⟨1, 5, .map⟩, 7, 1, ⟨false, false, false⟩, 0, 0, 999, 555⟩

/-- An oracle whose allocations all succeed and whose bus rejects every share
with status code 3. -/
def shareFailOracle : GrantOracle :=
  ⟨true, true, true, true, fun _ => .error 3, none⟩

theorem revokeSeq_append (a b : List Ev) :
    revokeSeq (a ++ b) = revokeSeq a ++ revokeSeq b :=
  List.filterMap_append a b _

theorem revokeSeq_map_revoke (l : List Nat) : revokeSeq (l.map Ev.revoke) = l := by
  unfold revokeSeq
  rw [List.filterMap_map]
  have : ((fun e => match e with | .revoke g => some g | _ => none) ∘ Ev.revoke) =
      (some : Nat → Option Nat) := rfl
  rw [this, List.filterMap_some]

theorem unwindRevokes_stable (xs : List Nat) (x : Nat) :
    ∀ p, p ≤ xs.length → unwindRevokes (xs ++ [x]) p = unwindRevokes xs p := by
  intro p
  induction p with
  | zero => intro _; rfl
  | succ p ih =>
    intro h
    have hp : p < xs.length := Nat.lt_of_succ_le h
    rw [unwindRevokes, unwindRevokes, ih (Nat.le_of_lt hp)]
    have : (xs ++ [x]).getD p 0 = xs.getD p 0 := by
      rw [List.getD_eq_getElem?_getD, List.getD_eq_getElem?_getD,
        List.getElem?_append_left hp]
    rw [this]

theorem unwindRevokes_full (gs : List Nat) :
    unwindRevokes gs gs.length = (gs.reverse).map Ev.revoke := by
  induction gs using List.reverseRecOn with
  | nil => rfl
  | append_singleton xs x ih =>
    have hlen : (xs ++ [x]).length = xs.length + 1 := by simp
    rw [hlen, unwindRevokes, unwindRevokes_stable xs x xs.length (Nat.le_refl _), ih]
    have : (xs ++ [x]).getD xs.length 0 = x := by
      rw [List.getD_eq_getElem?_getD, List.getElem?_append_right (Nat.le_refl _)]
      simp
    rw [this]
    simp [List.reverse_append]

theorem shareLoopGo_fail (share : Nat → Except Nat Nat) (g : Nat → Nat) (e : Nat) :
    ∀ d i r, d < r → (∀ j, j < d → share (i + j) = .ok (g (i + j))) →
      share (i + d) = .error e →
      shareLoopGo share i r = .fail (i + d) ((List.range' i d).map g) e := by
  intro d
  induction d with
  | zero =>
    intro i r hr hok hf
    match r, hr with
    | r + 1, _ =>
      rw [show i + 0 = i from rfl] at hf
      simp only [shareLoopGo, hf]
      simp [List.range']
  | succ d ih =>
    intro i r hr hok hf
    match r, hr with
    | r + 1, hr =>
      have h0 : share i = .ok (g i) := by simpa using hok 0 (Nat.succ_pos d)
      have hrec := ih (i + 1) r (by omega)
        (fun j hj => by
          have := hok (j + 1) (by omega)
          rwa [show i + (j + 1) = i + 1 + j by omega] at this)
        (by rwa [show i + (d + 1) = i + 1 + d by omega] at hf)
      simp only [shareLoopGo, h0, hrec]
      rw [List.range'_succ i d 1]
      simp only [List.map_cons]
      rw [show i + (d + 1) = i + 1 + d by omega]

theorem shareLoop_fail (share : Nat → Except Nat Nat) (g : Nat → Nat) (k n e : Nat)
    (hk : k < n) (hok : ∀ j, j < k → share j = .ok (g j)) (hf : share k = .error e) :
    shareLoop share n = .fail k ((List.range k).map g) e := by
  have := shareLoopGo_fail share g e k 0 n hk
    (fun j hj => by simpa using hok j hj) (by simpa using hf)
  simpa [shareLoop, List.range_eq_range'] using this

theorem range_map_getD (l : List Nat) (f : Nat → Nat) :
    (List.range l.length).map (fun i => f (l.getD i 0)) = l.map f := by
  induction l with
  | nil => rfl
  | cons x xs ih =>
    rw [List.length_cons, List.range_succ_eq_map, List.map_cons, List.map_map, List.map_cons]
    refine congrArg₂ List.cons rfl ?_
    rw [← ih]
    apply List.map_congr_left
    intro i _
    simp [List.getD_cons_succ]

theorem cleanupWatchWalk_freed (fo : Nat) (l : List WatchCtx) :
    (cleanupWatchWalk fo l).2 = (l.filter (fun w => w.fileObject == fo)).map WatchCtx.ptr := by
  induction l with
  | nil => rfl
  | cons w ws ih =>
    by_cases h : w.fileObject = fo <;>
      simp [cleanupWatchWalk, List.filter_cons, h, ih]

theorem cleanupWatchWalk_rem (fo : Nat) (l : List WatchCtx) :
    (cleanupWatchWalk fo l).1 = l.filter (fun w => !(w.fileObject == fo)) := by
  induction l with
  | nil => rfl
  | cons w ws ih =>
    by_cases h : w.fileObject = fo <;>
      simp [cleanupWatchWalk, List.filter_cons, h, ih]

theorem evtchnDetachWalk_toFree (fo : Nat) (l : List EvtchnCtx) :
    (evtchnDetachWalk fo l).2 = l.filter (fun c => c.fileObject == fo) := by
  induction l with
  | nil => rfl
  | cons c cs ih =>
    by_cases h : c.fileObject = fo <;>
      simp [evtchnDetachWalk, List.filter_cons, h, ih]

theorem evtchnDetachWalk_rem (fo : Nat) (l : List EvtchnCtx) :
    (evtchnDetachWalk fo l).1 = l.filter (fun c => !(c.fileObject == fo)) := by
  induction l with
  | nil => rfl
  | cons c cs ih =>
    by_cases h : c.fileObject = fo <;>
      simp [evtchnDetachWalk, List.filter_cons, h, ih]

theorem filter_not_then_filter {α : Type} (p : α → Bool) (l : List α) :
    (l.filter (fun a => !(p a))).filter p = [] := by
  rw [List.filter_filter]
  have : ∀ a ∈ l, (p a && !(p a)) = (fun _ => false) a := by
    intro a _; exact Bool.and_not_self (p a)
  rw [List.filter_congr this, List.filter_false]

theorem filter_not_idem {α : Type} (p : α → Bool) (l : List α) :
    (l.filter (fun a => !(p a))).filter (fun a => !(p a)) = l.filter (fun a => !(p a)) := by
  rw [List.filter_filter]
  apply List.filter_congr
  intro a _
  exact Bool.and_self _

/-- Claim C1, counterexample: on the explicit-revoke/forced-cleanup path
(GnttabFreeGrant), the per-page revocations are NOT in strict reverse order
of acquisition.  For the concrete two-page context whose grants were acquired
in order [10, 11], GnttabFreeGrant revokes [10, 11] (ioctl_gnttab.c:418-426
iterates Page = 0 upwards), not [11, 10]. -/
theorem gnttabFreeGrant_not_reverse_order :
    ¬ revokeSeq (gnttabFreeGrant sampleGrantCtx2) = sampleGrantCtx2.grants.reverse := by
  decide

/-- Claim C1 (amended): each page acquired by a grant or map operation is
revoked/unmapped exactly once on every exit path.  For map operations the
acquisition is the single bus mapping covering all pages: on every exit of
IoctlGnttabMapForeignPages the acquired mappings are undone by exactly one
matching bus unmap each, except the pending (success) exit, which keeps the
mapping parked, and teardown of a parked mapping (GnttabFreeMap — explicit
unmap or forced cleanup) undoes it exactly once.  For grant operations each
page is revoked exactly once, but the ORDER depends on the path: the
mid-construction failure unwind (the fail8 loop) revokes in strict reverse
order of acquisition, while full-context teardown (explicit revoke, forced
cleanup — GnttabFreeGrant) revokes in acquisition (forward) order. -/
theorem grant_map_teardown_exactly_once :
    (∀ ctx : GrantCtx, revokeSeq (gnttabFreeGrant ctx) = ctx.grants) ∧
    (∀ gs : List Nat, revokeSeq (unwindRevokes gs gs.length) = gs.reverse) ∧
    (∀ ctx : MapCtx, busUnmapSeq (gnttabFreeMap ctx) = [ctx.address]) ∧
    (∀ (o : MapOracle) (q : IrpQueue) (process inLen outLen : Nat) (inp : MapIn),
      busUnmapSeq (ioctlGnttabMapForeignPages o q process inLen outLen inp).events =
        if (ioctlGnttabMapForeignPages o q process inLen outLen inp).status = .pending
        then []
        else busMapSeq (ioctlGnttabMapForeignPages o q process inLen outLen inp).events) := by
  refine ⟨?_, ?_, ?_, ?_⟩
  · intro ctx
    have hcomp : ((fun e => match e with | Ev.revoke g => some g | _ => none) ∘ Ev.revoke) =
        (some : Nat → Option Nat) := rfl
    cases h1 : ctx.flags.useNotifyOffset <;> cases h2 : ctx.flags.useNotifyPort <;>
      simp [gnttabFreeGrant, h1, h2, revokeSeq_append, revokeSeq, hcomp,
        List.filterMap_some]
  · intro gs
    rw [unwindRevokes_full, revokeSeq_map_revoke]
  · intro ctx
    cases h1 : ctx.flags.useNotifyOffset <;> cases h2 : ctx.flags.useNotifyPort <;>
      simp [gnttabFreeMap, h1, h2, busUnmapSeq]
  · intro o q process inLen outLen inp
    unfold ioctlGnttabMapForeignPages
    dsimp only
    repeat' split
    all_goals simp_all [busUnmapSeq, busMapSeq, queueInsert, Pending.ctxId]

/-- Claim C4: pageCount 0 and 2^20+1 are rejected with invalid-parameter as
the claim states, but the boundary value 2^20 does not behave as claimed:
NumberPages * PAGE_SIZE is computed in 32-bit ULONG arithmetic and
2^20 * 4096 = 2^32 wraps to 0, so a permit request for 2^20 pages with the
offset-poke flag is rejected even for notify offset 0, and without the flag
the kernel buffer is allocated with 0 bytes instead of 2^32. -/
theorem gnttab_pageCount_boundary_overflow :
    (ioctlGnttabPermitForeignAccess shareFailOracle [] 1 sizeofPermitIn 0
        ⟨5, 7, 0, ⟨false, false, false⟩, 0, 0⟩).status = .invalidParameter ∧
    (ioctlGnttabMapForeignPages ⟨true, .error 3, none, true, none⟩ [] 1 sizeofMapIn 0
        ⟨5, 7, 0, ⟨false, false, false⟩, 0, 0, []⟩).status = .invalidParameter ∧
    (ioctlGnttabPermitForeignAccess shareFailOracle [] 1 sizeofPermitIn 0
        ⟨5, 7, 2 ^ 20 + 1, ⟨false, false, false⟩, 0, 0⟩).status = .invalidParameter ∧
    2 ^ 20 * PAGE_SIZE = 2 ^ 32 ∧
    grantBufferBytes (2 ^ 20) = 0 ∧
    (ioctlGnttabPermitForeignAccess shareFailOracle [] 1 sizeofPermitIn 0
        ⟨5, 7, 2 ^ 20, ⟨false, true, false⟩, 0, 0⟩).status = .invalidParameter ∧
    ioctlGnttabPermitForeignAccess shareFailOracle [] 1 sizeofPermitIn 0
        ⟨5, 7, 2 ^ 20, ⟨false, false, false⟩, 0, 0⟩ =
      ⟨.busError 3, [], [.allocCtx, .allocGrants (2 ^ 20 * sizeofGrantEntry),
                         .allocBuf 0, .allocMdl 0,
                         .freeMdl, .freeBuf, .freeGrants, .freeCtx]⟩ := by
  refine ⟨?_, ?_, ?_, ?_, ?_, ?_, ?_⟩ <;> decide

/-- Claim C5: for pageCount below the boundary the offset-poke validation is
exact (shown at 2^20 - 1), but at pageCount = 2^20 the ULONG product wraps to
0, so a MapForeignPages request with notify offset 4096 — which satisfies
notifyOffset < pageCount * pageSize as exact integers — is rejected with
invalid-parameter. -/
theorem map_notify_offset_not_exact_at_boundary :
    4096 < 2 ^ 20 * PAGE_SIZE ∧
    gnttabParamsRejected (2 ^ 20 - 1) ⟨false, true, false⟩ 4096 = false ∧
    gnttabParamsRejected (2 ^ 20 - 1) ⟨false, true, false⟩ ((2 ^ 20 - 1) * PAGE_SIZE) = true ∧
    (ioctlGnttabMapForeignPages ⟨true, .error 3, none, true, none⟩ [] 1
        (sizeofMapIn + sizeofUlong * 2 ^ 20) 0
        ⟨5, 7, 2 ^ 20, ⟨false, true, false⟩, 4096, 0, []⟩).status = .invalidParameter := by
  refine ⟨?_, ?_, ?_, ?_⟩ <;> decide

/-- Claim C7: the input-size check of IoctlGnttabUnmapForeignPages uses a
conjunction (ioctl_gnttab.c:768: InLen wrong AND OutLen nonzero), so a
request whose input block has the wrong size but whose output length is 0 is
NOT rejected with invalid-size: it reaches the pending-operation lookup
(not-found on an empty queue) and, when a matching pending map exists, even
performs the full teardown. -/
theorem unmap_size_check_conjunction_bug :
    (ioctlGnttabUnmapForeignPages [] 7 0 0 5).status = .notFound ∧
    (ioctlGnttabUnmapForeignPages [] 7 0 1 5).status = .invalidBufferSize ∧
    ioctlGnttabUnmapForeignPages [.map sampleMapCtx] 1 0 0 5 =
      ⟨.success, [], gnttabFreeMap sampleMapCtx⟩ := by
  refine ⟨?_, ?_, ?_⟩ <;> decide

/-- Claim C8: when the watch named by the request exists but is owned by a
different client and happens to be the LAST entry the walk visits, the stale
loop variable still equals In->Context after the walk, the post-loop guard
(ioctls.c:564) passes, and StoreFreeWatch tears the foreign watch down
without it ever having been removed from the list — the returned status is
success, not not-found.  When the foreign-owned watch is not last, the
claimed not-found/no-teardown behavior does hold. -/
theorem removeWatch_foreign_last_entry_freed :
    ioctlStoreRemoveWatch [⟨100, 1⟩] 2 sizeofRemoveWatchIn 0 100 =
      ⟨.success, [⟨100, 1⟩], [100]⟩ ∧
    ioctlStoreRemoveWatch [⟨100, 1⟩, ⟨200, 3⟩] 2 sizeofRemoveWatchIn 0 100 =
      ⟨.notFound, [⟨100, 1⟩, ⟨200, 3⟩], []⟩ := by
  refine ⟨?_, ?_⟩ <;> decide

/-- Claim C9: on client disconnection, XenIfaceCleanup destroys exactly the
watches owned by that client (in walk order, during the walk) and exactly the
channels owned by it (detached into a temporary list, then freed outside the
lock), N + M contexts in total each exactly once; the other clients' contexts
remain; and a second disconnection of the same client frees nothing and
leaves both registries unchanged. -/
theorem cleanup_exactly_once_and_idempotent (fo : Nat) (s : CleanupState) :
    (xenIfaceCleanup fo s).2.1 =
      (s.watchList.filter (fun w => w.fileObject == fo)).map WatchCtx.ptr ∧
    (xenIfaceCleanup fo s).2.2 =
      (s.evtchnList.filter (fun c => c.fileObject == fo)).map EvtchnCtx.ptr ∧
    (xenIfaceCleanup fo s).1.watchList =
      s.watchList.filter (fun w => !(w.fileObject == fo)) ∧
    (xenIfaceCleanup fo s).1.evtchnList =
      s.evtchnList.filter (fun c => !(c.fileObject == fo)) ∧
    (xenIfaceCleanup fo s).2.1.length + (xenIfaceCleanup fo s).2.2.length =
      s.watchList.countP (fun w => w.fileObject == fo) +
      s.evtchnList.countP (fun c => c.fileObject == fo) ∧
    xenIfaceCleanup fo (xenIfaceCleanup fo s).1 = ((xenIfaceCleanup fo s).1, [], []) := by
  refine ⟨?_, ?_, ?_, ?_, ?_, ?_⟩
  · simpa [xenIfaceCleanup] using cleanupWatchWalk_freed fo s.watchList
  · simp [xenIfaceCleanup, evtchnFreeAll, evtchnDetachWalk_toFree fo s.evtchnList]
  · simpa [xenIfaceCleanup] using cleanupWatchWalk_rem fo s.watchList
  · simpa [xenIfaceCleanup] using evtchnDetachWalk_rem fo s.evtchnList
  · simp [xenIfaceCleanup, evtchnFreeAll, cleanupWatchWalk_freed,
      evtchnDetachWalk_toFree, List.countP_eq_length_filter]
  · simp only [xenIfaceCleanup, evtchnFreeAll]
    rw [cleanupWatchWalk_rem fo s.watchList, evtchnDetachWalk_rem fo s.evtchnList,
      cleanupWatchWalk_freed, cleanupWatchWalk_rem, filter_not_then_filter, filter_not_idem,
      evtchnDetachWalk_toFree, evtchnDetachWalk_rem, filter_not_then_filter, filter_not_idem]
    rfl

/-- Claim C2: if every allocation succeeds, the request id is not already
pending, and the bus rejects the share of page k (after accepting pages
0..k-1 with grant handles g 0, ..., g (k-1)), then
IoctlGnttabPermitForeignAccess revokes exactly the previously shared pages in
reverse order of acquisition, frees the MDL, the kernel buffer, the grant
bookkeeping and the context, returns the bus-reported status unchanged, and
leaves the pending-operation queue exactly as it was (no partial state
reaches the client). -/
theorem permit_busFailure_fully_unwound
    (o : GrantOracle) (q : IrpQueue) (process : Nat) (inp : PermitIn)
    (g : Nat → Nat) (k e : Nat)
    (hval : gnttabParamsRejected inp.numberPages inp.flags inp.notifyOffset = false)
    (hctx : o.ctxAlloc = true) (hgr : o.grantsAlloc = true)
    (hbuf : o.bufAlloc = true) (hmdl : o.mdlAlloc = true)
    (hq : queueFind q ⟨process, inp.requestId, .grant⟩ = none)
    (hk : k < inp.numberPages)
    (hok : ∀ j, j < k → o.share j = .ok (g j))
    (hf : o.share k = .error e) :
    ioctlGnttabPermitForeignAccess o q process sizeofPermitIn 0 inp =
      ⟨.busError e, q,
       [.allocCtx, .allocGrants (inp.numberPages * sizeofGrantEntry),
        .allocBuf (grantBufferBytes inp.numberPages),
        .allocMdl (grantBufferBytes inp.numberPages)] ++
       ((List.range k).map g).map Ev.share ++
       (((List.range k).map g).reverse).map Ev.revoke ++
       [.freeMdl, .freeBuf, .freeGrants, .freeCtx]⟩ := by
  have hsl := shareLoop_fail o.share g k inp.numberPages e hk hok hf
  have hlen : ((List.range k).map g).length = k := by simp
  have hur : unwindRevokes ((List.range k).map g) k =
      (((List.range k).map g).reverse).map Ev.revoke := by
    have h := unwindRevokes_full ((List.range k).map g)
    rwa [hlen] at h
  simp only [ioctlGnttabPermitForeignAccess, hval, hctx, hgr, hbuf, hmdl, hq, hsl, hur,
    Option.isSome_none, Bool.false_eq_true, if_false, ne_eq, not_true_eq_false, or_self,
    if_neg, not_false_eq_true]
  simp

/-- Claim C3: while a PermitForeignAccess operation with some request id is
pending for a client, a second PermitForeignAccess call from the same client
with the same request id fails with invalid-parameter after merely
allocating and freeing the new context, and the queue — hence the first,
still-pending operation — is unchanged. -/
theorem permit_duplicate_requestId_rejected
    (o : GrantOracle) (q : IrpQueue) (process : Nat) (inp : PermitIn) (p : Pending)
    (hval : gnttabParamsRejected inp.numberPages inp.flags inp.notifyOffset = false)
    (hctx : o.ctxAlloc = true)
    (hq : queueFind q ⟨process, inp.requestId, .grant⟩ = some p) :
    ioctlGnttabPermitForeignAccess o q process sizeofPermitIn 0 inp =
      ⟨.invalidParameter, q, [.allocCtx, .freeCtx]⟩ := by
  simp only [ioctlGnttabPermitForeignAccess, hval, hctx, hq]
  simp

/-- Claim C6: with a well-formed input block, GetGrantResult fails with
not-found when no pending grant with the requested id exists for the calling
client; when one exists it fails with invalid-size unless the output length
is exactly the header size plus one reference slot per page; on the exact
size it returns the user address and the reference of every per-page grant
(the full array of pageCount references); and the queue is unchanged in every
case — the operation stays pending. -/
theorem getGrantResult_spec (q : IrpQueue) (process requestId outLen : Nat)
    (getReference : Nat → Nat) :
    (queueFind q ⟨process, requestId, .grant⟩ = none →
      ioctlGnttabGetGrantResult q process sizeofGetGrantResultIn outLen requestId getReference =
        ⟨.notFound, q, none⟩) ∧
    (∀ ctx : GrantCtx, queueFind q ⟨process, requestId, .grant⟩ = some (.grant ctx) →
      ctx.grants.length = ctx.numberPages →
      (outLen ≠ sizeofGetGrantResultOut + sizeofUlong * ctx.numberPages →
        ioctlGnttabGetGrantResult q process sizeofGetGrantResultIn outLen requestId getReference =
          ⟨.invalidBufferSize, q, none⟩) ∧
      (outLen = sizeofGetGrantResultOut + sizeofUlong * ctx.numberPages →
        ioctlGnttabGetGrantResult q process sizeofGetGrantResultIn outLen requestId getReference =
          ⟨.success, q, some (ctx.userVa, ctx.grants.map getReference)⟩)) := by
  constructor
  · intro h
    simp only [ioctlGnttabGetGrantResult, h]
    simp
  · intro ctx h hlen
    constructor
    · intro hsz
      simp only [ioctlGnttabGetGrantResult, h, hsz]
      simp [hsz]
    · intro hsz
      simp only [ioctlGnttabGetGrantResult, h]
      rw [if_neg (by simp [hsz])]
      rw [if_neg (by simp [hsz])]
      have : (List.range ctx.numberPages).map (fun i => getReference (ctx.grants.getD i 0)) =
          ctx.grants.map getReference := by
        rw [← hlen]
        exact range_map_getD ctx.grants getReference
      rw [this]

/-- Witness for claim C2: a concrete two-page permit request from client 1 on
an empty queue whose bus accepts page 0 with grant handle 100 and rejects
page 1 with status 13; the handler returns bus status 13, shares then revokes
exactly grant 100, frees everything, and the queue stays empty. -/
theorem permit_busFailure_fully_unwound_witness :
    ioctlGnttabPermitForeignAccess
        ⟨true, true, true, true, fun i => if i = 0 then .ok 100 else .error 13, none⟩
        [] 1 sizeofPermitIn 0 ⟨5, 7, 2, ⟨false, false, false⟩, 0, 0⟩ =
      ⟨.busError 13, [], [.allocCtx, .allocGrants 16, .allocBuf 8192, .allocMdl 8192,
                          .share 100, .revoke 100,
                          .freeMdl, .freeBuf, .freeGrants, .freeCtx]⟩ := by
  have h := permit_busFailure_fully_unwound
      ⟨true, true, true, true, fun i => if i = 0 then .ok 100 else .error 13, none⟩
      [] 1 ⟨5, 7, 2, ⟨false, false, false⟩, 0, 0⟩ (fun i => 100 + i) 1 13
      (by decide) rfl rfl rfl rfl rfl (by decide)
      (fun j hj => by interval_cases j; rfl) rfl
  rw [h]
  rfl

/-- Witness for claim C3: with the two-page grant of client 1 under request
id 5 pending, a second permit call from client 1 with request id 5 fails with
invalid-parameter and the queue still holds exactly the first operation. -/
theorem permit_duplicate_requestId_rejected_witness :
    ioctlGnttabPermitForeignAccess shareFailOracle [.grant sampleGrantCtx2] 1
        sizeofPermitIn 0 ⟨5, 7, 1, ⟨false, false, false⟩, 0, 0⟩ =
      ⟨.invalidParameter, [.grant sampleGrantCtx2], [.allocCtx, .freeCtx]⟩ := by
  exact permit_duplicate_requestId_rejected shareFailOracle [.grant sampleGrantCtx2] 1
      ⟨5, 7, 1, ⟨false, false, false⟩, 0, 0⟩ (.grant sampleGrantCtx2)
      (by decide) rfl (by decide)

/-- Witness for claim C6: for the pending two-page grant of client 1 under
request id 5 (grants 10 and 11, user address 4096) and the exact output size
8 + 4 * 2 = 16, GetGrantResult succeeds, returns address 4096 and both
references, and leaves the queue unchanged; with output size 17 it fails with
invalid-size; and for the unknown request id 6 it fails with not-found. -/
theorem getGrantResult_spec_witness :
    ioctlGnttabGetGrantResult [.grant sampleGrantCtx2] 1 sizeofGetGrantResultIn 16 5
        (fun g => g + 100) =
      ⟨.success, [.grant sampleGrantCtx2], some (4096, [110, 111])⟩ ∧
    ioctlGnttabGetGrantResult [.grant sampleGrantCtx2] 1 sizeofGetGrantResultIn 17 5
        (fun g => g + 100) =
      ⟨.invalidBufferSize, [.grant sampleGrantCtx2], none⟩ ∧
    ioctlGnttabGetGrantResult [.grant sampleGrantCtx2] 1 sizeofGetGrantResultIn 16 6
        (fun g => g + 100) =
      ⟨.notFound, [.grant sampleGrantCtx2], none⟩ := by
  refine ⟨?_, ?_, ?_⟩
  · have h := ((getGrantResult_spec [.grant sampleGrantCtx2] 1 5 16
        (fun g => g + 100)).2 sampleGrantCtx2 (by decide) (by decide)).2 (by decide)
    rw [h]
    rfl
  · exact ((getGrantResult_spec [.grant sampleGrantCtx2] 1 5 17
        (fun g => g + 100)).2 sampleGrantCtx2 (by decide) (by decide)).1 (by decide)
  · exact (getGrantResult_spec [.grant sampleGrantCtx2] 1 6 16
        (fun g => g + 100)).1 (by decide)

end Xeniface
